import Mathlib

/-!
Verification of the label-replacement / mask-merge tool
(`replace_tumor_from_task212.py`) of the NanoMASK repository.

The tool loads two volumetric label maps (the primary Task006 multi-class
segmentation and the secondary Task212 tumor map), checks geometric
compatibility, and replaces the designated tumor label of the primary map
by the voxels flagged positive in the secondary map, writing the merged
array with the primary map's spatial metadata.

Arrays are embedded as flat lists of integer voxel values (`List Int`);
the numpy `astype(np.int16)` cast is modelled by explicit wrapping into
the signed 16-bit range.  The spatial metadata (affine, header) is carried
in a `Volume` structure; affine entries are rationals and the
`np.allclose(a, b, atol=1e-5)` check keeps numpy's default relative
tolerance `rtol=1e-5`.
-/

/-- Wrap an integer into the signed 16-bit range, the semantics of
numpy's `astype(np.int16)` cast used at lines 48 and 69 of the script. -/
def toInt16 (v : Int) : Int := (v + 32768) % 65536 - 32768

/-- `out_arr[seg006 == tumor_label] = 0`: zero all voxels carrying the
target label (lines 61 and 65 of the script). -/
def removeLabel (arr : List Int) (label : Int) : List Int :=
  arr.map (fun v => if v = label then 0 else v)

/-- `tumor212_mask = (seg212 > 0)` (line 51 of the script). -/
def tumor212_mask (seg212 : List Int) : List Bool :=
  seg212.map (fun v => decide (0 < v))

/-- `out_arr[tumor212_mask] = args.tumor_label` (line 66): stamp the
target label wherever the secondary mask is true.  Storing into the
`int16` array wraps the label value. -/
def stampLabel (arr : List Int) (mask : List Bool) (label : Int) : List Int :=
  List.zipWith (fun v m => if m then toInt16 label else v) arr mask

/-- The array transform performed by `main` (lines 48–67): cast the
primary array to `int16`, then branch on emptiness of the secondary mask
and the fallback flag. -/
def mergeArr (seg006 seg212 : List Int) (tumor_label fallback : Int) : List Int :=
  let s6 := seg006.map toInt16
  let mask := tumor212_mask seg212
  if mask.any id then
    stampLabel (removeLabel s6 tumor_label) mask tumor_label
  else if fallback ≠ 0 then
    s6
  else
    removeLabel s6 tumor_label

/-- The voxel array actually written (line 69): `out_arr.astype(np.int16)`. -/
def savedArr (seg006 seg212 : List Int) (tumor_label fallback : Int) : List Int :=
  (mergeArr seg006 seg212 tumor_label fallback).map toInt16

/-- A volumetric label map: voxel array plus spatial metadata.  `shape`
is the array's dimension list, `data` the flattened voxel values,
`affine` the flattened affine matrix (rational entries), `header` an
opaque header token. -/
structure Volume where
  shape : List Nat
  data : List Int
  affine : List ℚ
  header : Nat
deriving DecidableEq

/-- `np.allclose(a, b, atol=1e-5)` with numpy's default `rtol=1e-5`:
elementwise `|a - b| ≤ atol + rtol * |b|` (line 44 of the script). -/
def allclose (a b : List ℚ) : Bool :=
  (a.zip b).all (fun q => decide (|q.1 - q.2| ≤ 1/100000 + (1/100000) * |q.2|))

/-- Outcome of one invocation of `main`: process exit code, the volume
written to `--out` (if any), and which messages went to stderr. -/
structure MainResult where
  exitCode : Nat
  written : Option Volume
  shapeErrorReported : Bool
  affineWarned : Bool
deriving DecidableEq

/-- The `main` procedure of `replace_tumor_from_task212.py` after the two
volumes are loaded: fatal shape check (exit 2), non-fatal affine warning,
merge, and save with the primary volume's affine and header. -/
def runMain (img006 img212 : Volume) (tumor_label fallback : Int) : MainResult :=
  if img006.shape ≠ img212.shape then
    { exitCode := 2, written := none, shapeErrorReported := true, affineWarned := false }
  else
    { exitCode := 0
      written := some
        { shape := img006.shape
          data := savedArr img006.data img212.data tumor_label fallback
          affine := img006.affine
          header := img006.header }
      shapeErrorReported := false
      affineWarned := ! allclose img006.affine img212.affine }

/-- Per-voxel value of the merged array, by cases on whether the
secondary mask has any positive voxel, the fallback flag, and the local
values. -/
def mergeVoxel (p s : Int) (anyPos : Bool) (tumor_label fallback : Int) : Int :=
  if anyPos then
    if 0 < s then toInt16 tumor_label
    else if toInt16 p = tumor_label then 0 else toInt16 p
  else if fallback ≠ 0 then toInt16 p
  else if toInt16 p = tumor_label then 0 else toInt16 p

section Helpers

lemma toInt16_lb (v : Int) : -32768 ≤ toInt16 v := by
  have h := Int.emod_nonneg (v + 32768) (by norm_num : (65536 : Int) ≠ 0)
  unfold toInt16; omega

lemma toInt16_ub (v : Int) : toInt16 v < 32768 := by
  have h := Int.emod_lt_of_pos (v + 32768) (by norm_num : (0 : Int) < 65536)
  unfold toInt16; omega

lemma toInt16_eq_self {v : Int} (h1 : -32768 ≤ v) (h2 : v < 32768) : toInt16 v = v := by
  unfold toInt16
  rw [Int.emod_eq_of_lt (by omega) (by omega)]
  omega

lemma toInt16_toInt16 (v : Int) : toInt16 (toInt16 v) = toInt16 v :=
  toInt16_eq_self (toInt16_lb v) (toInt16_ub v)

lemma toInt16_zero : toInt16 0 = 0 := by decide

lemma toInt16_mergeVoxel (p s : Int) (b : Bool) (t fb : Int) :
    toInt16 (mergeVoxel p s b t fb) = mergeVoxel p s b t fb := by
  unfold mergeVoxel
  split_ifs <;> simp [toInt16_toInt16, toInt16_zero]

lemma tumor212_mask_any_iff (s : List Int) :
    (tumor212_mask s).any id = true ↔ ∃ x ∈ s, 0 < x := by
  simp [tumor212_mask, List.any_map, List.any_eq_true, Function.comp]

lemma tumor212_mask_any_eq_false_iff (s : List Int) :
    (tumor212_mask s).any id = false ↔ ∀ x ∈ s, ¬ 0 < x := by
  rw [← Bool.not_eq_true, tumor212_mask_any_iff]
  push_neg
  exact Iff.rfl

lemma mergeArr_length (p s : List Int) (t fb : Int) (hlen : p.length = s.length) :
    (mergeArr p s t fb).length = p.length := by
  simp only [mergeArr]
  cases hany : (tumor212_mask s).any id
  · simp only [hany, Bool.false_eq_true, if_false]
    by_cases hfb : fb ≠ 0
    · simp [hfb]
    · simp [hfb, removeLabel]
  · simp only [hany, if_true]
    simp [stampLabel, removeLabel, tumor212_mask, hlen]

lemma savedArr_length (p s : List Int) (t fb : Int) (hlen : p.length = s.length) :
    (savedArr p s t fb).length = p.length := by
  unfold savedArr
  simp [mergeArr_length p s t fb hlen]

lemma mergeArr_getElem? (p s : List Int) (t fb : Int)
    (i : Nat) (hip : i < p.length) (his : i < s.length) :
    (mergeArr p s t fb)[i]? =
      some (mergeVoxel p[i] s[i] ((tumor212_mask s).any id) t fb) := by
  unfold mergeArr mergeVoxel
  cases hany : (tumor212_mask s).any id with
  | false =>
    simp only [hany, Bool.false_eq_true, if_false]
    by_cases hfb : fb ≠ 0
    · simp [hfb, List.getElem?_map, List.getElem?_eq_getElem hip]
    · simp [hfb, removeLabel, List.getElem?_map, List.getElem?_eq_getElem hip]
  | true =>
    simp only [hany, if_true]
    have hmask : (tumor212_mask s)[i]? = some (decide (0 < s[i])) := by
      simp [tumor212_mask, List.getElem?_map, List.getElem?_eq_getElem his]
    rw [stampLabel, List.getElem?_zipWith]
    rw [hmask]
    have harr : (removeLabel (p.map toInt16) t)[i]? =
        some (if toInt16 p[i] = t then 0 else toInt16 p[i]) := by
      simp [removeLabel, List.getElem?_map, List.getElem?_eq_getElem hip]
    rw [harr]
    by_cases hpos : 0 < s[i] <;> simp [hpos]

lemma savedArr_getElem? (p s : List Int) (t fb : Int)
    (i : Nat) (hip : i < p.length) (his : i < s.length) :
    (savedArr p s t fb)[i]? =
      some (mergeVoxel p[i] s[i] ((tumor212_mask s).any id) t fb) := by
  unfold savedArr
  rw [List.getElem?_map, mergeArr_getElem? p s t fb i hip his]
  simp [toInt16_mergeVoxel]

lemma map_toInt16_id : ∀ {p : List Int}, (∀ x ∈ p, toInt16 x = x) → p.map toInt16 = p
  | [], _ => rfl
  | a :: l, h => by
      simp only [List.map_cons, List.cons.injEq]
      exact ⟨h a (by simp), map_toInt16_id (fun x hx => h x (by simp [hx]))⟩

end Helpers

/-- C1: when the secondary map has a positive voxel at `i` (so it is in
particular non-empty), the written output at `i` is exactly the target
label, whatever the primary held there.  The target label is assumed to
be representable in the output's `int16` type. -/
theorem C1_secondary_mask_stamps_target_label
    (p s : List Int) (t fb : Int)
    (ht1 : -32768 ≤ t) (ht2 : t < 32768)
    (i : Nat) (hip : i < p.length) (his : i < s.length)
    (hpos : 0 < s[i]) :
    (savedArr p s t fb)[i]? = some t := by
  rw [savedArr_getElem? p s t fb i hip his]
  have hany : (tumor212_mask s).any id = true :=
    (tumor212_mask_any_iff s).mpr ⟨s[i], List.getElem_mem his, hpos⟩
  simp [mergeVoxel, hany, hpos, toInt16_eq_self ht1 ht2]

theorem C1_witness :
    (-32768 ≤ (6:Int)) ∧ ((6:Int) < 32768) ∧
    1 < ([2, 2] : List Int).length ∧ 1 < ([0, 1] : List Int).length ∧
    (0 : Int) < 1 ∧
    (savedArr [2, 2] [0, 1] 6 0)[1]? = some 6 :=
  ⟨by decide, by decide, by decide, by decide, by decide,
   C1_secondary_mask_stamps_target_label [2, 2] [0, 1] 6 0 (by decide) (by decide)
     1 (by decide) (by decide) (by decide)⟩

/-- C2, counterexample: with primary `[6]`, secondary `[0]`, target
label 6 and the fallback flag set (1), voxel 0 holds the target label and
the secondary mask is false there, so the claimed trichotomy demands the
output become 0 — but the fallback branch keeps the primary unchanged and
the output voxel stays 6. -/
theorem C2_counterexample :
    ((6 : Int) = 6 ∧ ¬ (0 : Int) < 0) ∧
    (savedArr [6] [0] 6 1)[0]? = some 6 ∧
    (savedArr [6] [0] 6 1)[0]? ≠ some 0 := by decide

/-- C2, amended: the per-voxel trichotomy (keep a non-target unmasked
voxel, stamp the target label on masked voxels, zero an unmasked voxel
holding the target label) holds in every combination of the fallback
flag and secondary emptiness, except that the zeroing arm requires the
run not to be in the fallback-with-empty-secondary branch, where the
primary (and hence the target label) is kept unchanged.  Primary values
and the target label are assumed `int16`-representable. -/
theorem C2_amended_voxel_trichotomy
    (p s : List Int) (t fb : Int)
    (hp : ∀ x ∈ p, toInt16 x = x) (ht1 : -32768 ≤ t) (ht2 : t < 32768)
    (i : Nat) (hip : i < p.length) (his : i < s.length) :
    ((p[i] ≠ t ∧ ¬ 0 < s[i]) → (savedArr p s t fb)[i]? = some p[i]) ∧
    (0 < s[i] → (savedArr p s t fb)[i]? = some t) ∧
    ((p[i] = t ∧ ¬ 0 < s[i] ∧ ¬ (fb ≠ 0 ∧ ∀ x ∈ s, ¬ 0 < x)) →
      (savedArr p s t fb)[i]? = some 0) := by
  have hpi : toInt16 p[i] = p[i] := hp p[i] (List.getElem_mem hip)
  rw [savedArr_getElem? p s t fb i hip his]
  refine ⟨?_, ?_, ?_⟩
  · rintro ⟨hne, hmask⟩
    unfold mergeVoxel
    cases hany : (tumor212_mask s).any id
    · simp only [Bool.false_eq_true, if_false]
      by_cases hfb : fb ≠ 0 <;> simp [hfb, hpi, hne]
    · simp [hmask, hpi, hne]
  · intro hpos
    have hany : (tumor212_mask s).any id = true :=
      (tumor212_mask_any_iff s).mpr ⟨s[i], List.getElem_mem his, hpos⟩
    simp [mergeVoxel, hany, hpos, toInt16_eq_self ht1 ht2]
  · rintro ⟨hpt, hmask, hnc⟩
    unfold mergeVoxel
    cases hany : (tumor212_mask s).any id
    · have hempty : ∀ x ∈ s, ¬ 0 < x := (tumor212_mask_any_eq_false_iff s).mp hany
      have hfb : fb = 0 := by
        by_contra hfb
        exact hnc ⟨hfb, hempty⟩
      simp [hfb, hpt, toInt16_eq_self ht1 ht2]
    · simp [hmask, hpt, toInt16_eq_self ht1 ht2]

theorem C2_witness :
    (∀ x ∈ ([6, 3, 2] : List Int), toInt16 x = x) ∧
    (-32768 ≤ (6 : Int)) ∧ ((6 : Int) < 32768) ∧
    0 < ([6, 3, 2] : List Int).length ∧ 0 < ([0, 1, 0] : List Int).length ∧
    ((((6 : Int) ≠ 6 ∧ ¬ (0 : Int) < 0) → (savedArr [6, 3, 2] [0, 1, 0] 6 0)[0]? = some 6) ∧
     ((0 : Int) < 0 → (savedArr [6, 3, 2] [0, 1, 0] 6 0)[0]? = some 6) ∧
     (((6 : Int) = 6 ∧ ¬ (0 : Int) < 0 ∧ ¬ ((0 : Int) ≠ 0 ∧ ∀ x ∈ ([0, 1, 0] : List Int), ¬ 0 < x)) →
       (savedArr [6, 3, 2] [0, 1, 0] 6 0)[0]? = some 0)) :=
  ⟨by decide, by decide, by decide, by decide, by decide,
   C2_amended_voxel_trichotomy [6, 3, 2] [0, 1, 0] 6 0 (by decide) (by decide) (by decide)
     0 (by decide) (by decide)⟩

/-- C3: when the two shapes differ, `main` reports the mismatch on
stderr, exits with code 2, and writes no output volume. -/
theorem C3_shape_mismatch_exits_2
    (p s : Volume) (t fb : Int) (h : p.shape ≠ s.shape) :
    (runMain p s t fb).exitCode = 2 ∧ (runMain p s t fb).written = none ∧
      (runMain p s t fb).shapeErrorReported = true := by
  simp [runMain, h]

theorem C3_witness :
    ([64, 64, 32] : List Nat) ≠ [64, 64, 31] ∧
    ((runMain ⟨[64, 64, 32], [], [], 0⟩ ⟨[64, 64, 31], [], [], 0⟩ 6 0).exitCode = 2 ∧
     (runMain ⟨[64, 64, 32], [], [], 0⟩ ⟨[64, 64, 31], [], [], 0⟩ 6 0).written = none ∧
     (runMain ⟨[64, 64, 32], [], [], 0⟩ ⟨[64, 64, 31], [], [], 0⟩ 6 0).shapeErrorReported = true) :=
  ⟨by decide, C3_shape_mismatch_exits_2 ⟨[64, 64, 32], [], [], 0⟩ ⟨[64, 64, 31], [], [], 0⟩ 6 0 (by decide)⟩

/-- C4: with an all-nonpositive secondary map and the fallback flag
unset (0), the written output is the primary array with every voxel equal
to the target label replaced by 0 and all other voxels unchanged.  The
primary's values are assumed `int16`-representable (the script casts the
primary with `astype(np.int16)` before merging). -/
theorem C4_empty_secondary_default_removes_target
    (p s : List Int) (t : Int)
    (hs : ∀ x ∈ s, ¬ 0 < x)
    (hp : ∀ x ∈ p, toInt16 x = x) :
    savedArr p s t 0 = removeLabel p t := by
  have hany : (tumor212_mask s).any id = false :=
    (tumor212_mask_any_eq_false_iff s).mpr hs
  unfold savedArr
  simp only [mergeArr, hany, Bool.false_eq_true, if_false, ne_eq,
    not_true_eq_false, not_false_eq_true]
  rw [map_toInt16_id hp]
  unfold removeLabel
  rw [List.map_map]
  apply List.map_congr_left
  intro x hx
  by_cases hxt : x = t <;> simp [Function.comp, hxt, toInt16_zero, hp x hx]

theorem C4_witness :
    (∀ x ∈ ([0, 0, 0, 0] : List Int), ¬ 0 < x) ∧
    (∀ x ∈ ([0, 6, 2, -5] : List Int), toInt16 x = x) ∧
    savedArr [0, 6, 2, -5] [0, 0, 0, 0] 6 0 = removeLabel [0, 6, 2, -5] 6 :=
  ⟨by decide, by decide,
   C4_empty_secondary_default_removes_target [0, 6, 2, -5] [0, 0, 0, 0] 6
     (by decide) (by decide)⟩

/-- C5: with an all-nonpositive secondary map and the fallback flag set
(non-zero), the written output equals the primary array voxel for voxel.
The primary's values are assumed `int16`-representable. -/
theorem C5_empty_secondary_fallback_keeps_primary
    (p s : List Int) (t fb : Int)
    (hs : ∀ x ∈ s, ¬ 0 < x) (hfb : fb ≠ 0)
    (hp : ∀ x ∈ p, toInt16 x = x) :
    savedArr p s t fb = p := by
  have hany : (tumor212_mask s).any id = false :=
    (tumor212_mask_any_eq_false_iff s).mpr hs
  unfold savedArr
  simp only [mergeArr, hany, Bool.false_eq_true, if_false]
  rw [if_pos hfb, map_toInt16_id hp, map_toInt16_id hp]

/-- C6: a voxel where the secondary mask is false and the primary does
not hold the target label keeps its primary value in the written output,
in every branch (fallback set or not, secondary empty or not).  The
primary's value at the voxel is assumed `int16`-representable. -/
theorem C6_unmasked_nontarget_voxels_unchanged
    (p s : List Int) (t fb : Int)
    (i : Nat) (hip : i < p.length) (his : i < s.length)
    (hmask : ¬ 0 < s[i]) (hne : p[i] ≠ t)
    (hpi : toInt16 p[i] = p[i]) :
    (savedArr p s t fb)[i]? = some p[i] := by
  rw [savedArr_getElem? p s t fb i hip his]
  unfold mergeVoxel
  cases hany : (tumor212_mask s).any id
  · simp only [Bool.false_eq_true, if_false]
    by_cases hfb : fb ≠ 0 <;> simp [hfb, hpi, hne]
  · simp [hmask, hpi, hne]

theorem C6_witness :
    0 < ([3, 6] : List Int).length ∧ 0 < ([0, 1] : List Int).length ∧
    (¬ (0 : Int) < 0) ∧ ((3 : Int) ≠ 6) ∧ toInt16 3 = 3 ∧
    (savedArr [3, 6] [0, 1] 6 0)[0]? = some 3 :=
  ⟨by decide, by decide, by decide, by decide, by decide,
   C6_unmasked_nontarget_voxels_unchanged [3, 6] [0, 1] 6 0 0
     (by decide) (by decide) (by decide) (by decide) (by decide)⟩

/-- C7: the non-fallback empty-secondary transform is idempotent:
running it on its own output (with the same empty secondary) returns the
output unchanged. -/
theorem C7_remove_branch_idempotent
    (p s : List Int) (t : Int) (hs : ∀ x ∈ s, ¬ 0 < x) :
    savedArr (savedArr p s t 0) s t 0 = savedArr p s t 0 := by
  have hany : (tumor212_mask s).any id = false :=
    (tumor212_mask_any_eq_false_iff s).mpr hs
  unfold savedArr
  simp only [mergeArr, hany, Bool.false_eq_true, if_false, ne_eq,
    not_true_eq_false, not_false_eq_true]
  unfold removeLabel
  simp only [List.map_map]
  apply List.map_congr_left
  intro v _
  simp only [Function.comp_apply]
  by_cases hvt : toInt16 v = t
  · simp [hvt, toInt16_zero]
  · simp [hvt, toInt16_toInt16]

theorem C7_witness :
    (∀ x ∈ ([0, -1] : List Int), ¬ 0 < x) ∧
    savedArr (savedArr [6, 2] [0, -1] 6 0) [0, -1] 6 0 = savedArr [6, 2] [0, -1] 6 0 :=
  ⟨by decide, C7_remove_branch_idempotent [6, 2] [0, -1] 6 (by decide)⟩

/-- C8: with matching shapes but an affine pair failing the `allclose`
tolerance check, `main` emits the warning, still exits 0, and the written
volume carries the primary's affine and header. -/
theorem C8_affine_mismatch_warns_and_uses_primary_metadata
    (p s : Volume) (t fb : Int)
    (hshape : p.shape = s.shape)
    (haff : allclose p.affine s.affine = false) :
    (runMain p s t fb).exitCode = 0 ∧
    (runMain p s t fb).affineWarned = true ∧
    (runMain p s t fb).written.map Volume.affine = some p.affine ∧
    (runMain p s t fb).written.map Volume.header = some p.header := by
  simp [runMain, hshape, haff]

theorem C8_witness :
    ([2] : List Nat) = [2] ∧
    allclose [0] [1] = false ∧
    ((runMain ⟨[2], [0, 0], [0], 3⟩ ⟨[2], [1, 1], [1], 4⟩ 6 0).exitCode = 0 ∧
     (runMain ⟨[2], [0, 0], [0], 3⟩ ⟨[2], [1, 1], [1], 4⟩ 6 0).affineWarned = true ∧
     (runMain ⟨[2], [0, 0], [0], 3⟩ ⟨[2], [1, 1], [1], 4⟩ 6 0).written.map Volume.affine = some [0] ∧
     (runMain ⟨[2], [0, 0], [0], 3⟩ ⟨[2], [1, 1], [1], 4⟩ 6 0).written.map Volume.header = some 3) :=
  ⟨rfl, by norm_num [allclose],
   C8_affine_mismatch_warns_and_uses_primary_metadata
     ⟨[2], [0, 0], [0], 3⟩ ⟨[2], [1, 1], [1], 4⟩ 6 0 rfl (by norm_num [allclose])⟩

/-- C9: with matching shapes (and consistent voxel counts), `main`
writes a volume whose shape equals the primary's, whose array has the
primary's voxel count, and all of whose values lie in the signed 16-bit
range. -/
theorem C9_output_shape_and_int16_range
    (p s : Volume) (t fb : Int)
    (hshape : p.shape = s.shape)
    (hlen : p.data.length = s.data.length) :
    (runMain p s t fb).written =
      some { shape := p.shape, data := savedArr p.data s.data t fb,
             affine := p.affine, header := p.header } ∧
    (savedArr p.data s.data t fb).length = p.data.length ∧
    ∀ x ∈ savedArr p.data s.data t fb, -32768 ≤ x ∧ x < 32768 := by
  refine ⟨by simp [runMain, hshape], savedArr_length _ _ _ _ hlen, ?_⟩
  intro x hx
  unfold savedArr at hx
  obtain ⟨y, _, rfl⟩ := List.mem_map.mp hx
  exact ⟨toInt16_lb y, toInt16_ub y⟩

theorem C9_witness :
    ([2] : List Nat) = [2] ∧
    ([7, 40000] : List Int).length = ([1, 0] : List Int).length ∧
    ((runMain ⟨[2], [7, 40000], [0], 3⟩ ⟨[2], [1, 0], [0], 4⟩ 6 0).written =
      some { shape := [2], data := savedArr [7, 40000] [1, 0] 6 0,
             affine := [0], header := 3 } ∧
     (savedArr [7, 40000] [1, 0] 6 0).length = ([7, 40000] : List Int).length ∧
     ∀ x ∈ savedArr [7, 40000] [1, 0] 6 0, -32768 ≤ x ∧ x < 32768) :=
  ⟨rfl, rfl,
   C9_output_shape_and_int16_range ⟨[2], [7, 40000], [0], 3⟩ ⟨[2], [1, 0], [0], 4⟩ 6 0 rfl rfl⟩

/-- C10: when the target label is non-zero (and `int16`-representable)
and the secondary map has at least one positive voxel, the written output
holds the target label at a voxel exactly when the secondary mask is true
there: every prior occurrence in the primary is erased and the label is
re-introduced only on the mask. -/
theorem C10_target_exactly_on_secondary_mask
    (p s : List Int) (t fb : Int)
    (ht0 : t ≠ 0) (ht1 : -32768 ≤ t) (ht2 : t < 32768)
    (hne : ∃ x ∈ s, 0 < x)
    (i : Nat) (hip : i < p.length) (his : i < s.length) :
    ((savedArr p s t fb)[i]? = some t ↔ 0 < s[i]) := by
  have hany : (tumor212_mask s).any id = true := (tumor212_mask_any_iff s).mpr hne
  rw [savedArr_getElem? p s t fb i hip his]
  unfold mergeVoxel
  simp only [hany, if_true]
  by_cases hpos : 0 < s[i]
  · simp [hpos, toInt16_eq_self ht1 ht2]
  · simp only [hpos, if_false, iff_false]
    intro h
    by_cases hpt : toInt16 p[i] = t
    · rw [if_pos hpt] at h
      exact ht0 (Option.some.inj h).symm
    · rw [if_neg hpt] at h
      exact hpt (Option.some.inj h)

theorem C10_witness :
    ((6 : Int) ≠ 0) ∧ (-32768 ≤ (6 : Int)) ∧ ((6 : Int) < 32768) ∧
    (∃ x ∈ ([0, 1] : List Int), 0 < x) ∧
    0 < ([6, 3] : List Int).length ∧ 0 < ([0, 1] : List Int).length ∧
    ((savedArr [6, 3] [0, 1] 6 0)[0]? = some 6 ↔ (0 : Int) < 0) :=
  ⟨by decide, by decide, by decide, by decide, by decide, by decide,
   C10_target_exactly_on_secondary_mask [6, 3] [0, 1] 6 0 (by decide) (by decide)
     (by decide) (by decide) 0 (by decide) (by decide)⟩

theorem C5_witness :
    (∀ x ∈ ([0, 0, -3] : List Int), ¬ 0 < x) ∧
    ((1 : Int) ≠ 0) ∧
    (∀ x ∈ ([0, 6, 2] : List Int), toInt16 x = x) ∧
    savedArr [0, 6, 2] [0, 0, -3] 6 1 = [0, 6, 2] :=
  ⟨by decide, by decide, by decide,
   C5_empty_secondary_fallback_keeps_primary [0, 6, 2] [0, 0, -3] 6 1
     (by decide) (by decide) (by decide)⟩
